/-
  Verification of the Community Help Request Management System (src/app.py).

  The Flask application is a thin CRUD layer over a two-table SQLite store,
  with a rule-based keyword classifier for urgency.  We give a shallow
  embedding: the database becomes a pair of lists of records, each route
  handler becomes a pure function on that state, and the classifier is a
  direct translation of `predict_urgency`.
-/
import Mathlib

namespace CommunityHelp

/-! ## Urgency classifier (src/app.py, `predict_urgency`) -/

/-- The fixed emergency keyword list from `predict_urgency`. -/
def emergency_keywords : List String :=
  ["accident", "fire", "blood", "hospital", "unconscious",
   "emergency", "urgent", "dying", "collapse", "critical",
   "ambulance", "heart attack", "stroke", "drowning",
   "earthquake", "flood", "trapped", "severe", "life-threatening",
   "choking", "bleeding", "injury", "injured", "wound",
   "electrocution", "poison", "overdose", "suicide", "assault",
   "violence", "gunshot", "stabbing", "burning", "explosion"]

/-- The fixed medium keyword list from `predict_urgency`. -/
def medium_keywords : List String :=
  ["food", "medicine", "support", "need help", "assistance",
   "shelter", "clothes", "clothing", "water", "electricity",
   "medical", "doctor", "prescription", "transport", "repair",
   "broken", "leak", "sick", "ill", "fever", "pain",
   "homeless", "hungry", "stranded", "lost", "disabled",
   "elderly", "child", "baby", "pregnant", "medication"]

/-- Does `needle` occur at the head of `haystack`?  (Helper for substring
containment, the semantics of the Python `in` operator on strings.) -/
def beginsWith : List Char → List Char → Bool
  | [], _ => true
  | _ :: _, [] => false
  | a :: as, b :: bs => a == b && beginsWith as bs

/-- Does `needle` occur somewhere inside `haystack`? -/
def occursIn (needle : List Char) : List Char → Bool
  | [] => beginsWith needle []
  | b :: bs => beginsWith needle (b :: bs) || occursIn needle bs

/-- Python `needle in haystack` on strings: substring containment. -/
def strContains (haystack needle : String) : Bool :=
  occursIn needle.data haystack.data

/-- One whitespace character, as stripped by Python `str.strip()`. -/
def isSpaceChar (c : Char) : Bool :=
  c == ' ' || c == '\t' || c == '\n' || c == '\r' || c == '\x0b' || c == '\x0c'

/-- Drop leading whitespace from a character list. -/
def dropLeadingSpace : List Char → List Char
  | [] => []
  | c :: cs => if isSpaceChar c then dropLeadingSpace cs else c :: cs

/-- Python `str.strip()`: remove whitespace from both ends. -/
def strTrim (s : String) : String :=
  ⟨(dropLeadingSpace (dropLeadingSpace s.data).reverse).reverse⟩

/-- ASCII lower-casing of one character, the effect of Python `str.lower`
on the ASCII texts this application handles. -/
def lowerChar (c : Char) : Char :=
  if 65 ≤ c.toNat ∧ c.toNat ≤ 90 then Char.ofNat (c.toNat + 32) else c

/-- Lower-casing of a string (Python `str.lower` restricted to ASCII). -/
def strLower (s : String) : String :=
  ⟨s.data.map lowerChar⟩

/-- `predict_urgency` from src/app.py: lower-case the description, return
"Emergency" if any emergency keyword is a substring, otherwise "Medium" if
any medium keyword is a substring, otherwise "Low". -/
def predict_urgency (description : String) : String :=
  if emergency_keywords.any (fun k => strContains (strLower description) k) then "Emergency"
  else if medium_keywords.any (fun k => strContains (strLower description) k) then "Medium"
  else "Low"

/-! ## Data model (src/app.py, `init_db`)

`help_requests` and `volunteers` rows.  Timestamps are modelled as natural
numbers (the stored `DATETIME` strings compare in the same order). -/

/-- A row of the `help_requests` table. -/
structure HelpRequest where
  id : Nat
  name : String
  phone : String
  address : String
  category : String
  description : String
  urgency : String
  solved_status : String
  created_at : Nat
deriving DecidableEq

/-- A row of the `volunteers` table. -/
structure Volunteer where
  id : Nat
  name : String
  phone : String
  email : String
  registered_at : Nat
  last_seen_alert_id : Nat
deriving DecidableEq

/-- The persistent store: the two tables of the SQLite database. -/
structure DB where
  help_requests : List HelpRequest
  volunteers : List Volunteer
deriving DecidableEq

/-- `SELECT MAX(id) FROM help_requests`, with NULL (empty table) read as 0,
as the Python code does via `latest["max_id"] if latest and latest["max_id"]
else 0`.  Rows are never deleted, so this also tracks AUTOINCREMENT. -/
def max_request_id (rs : List HelpRequest) : Nat :=
  rs.foldr (fun r m => max r.id m) 0

/-- Maximum volunteer id, used to assign AUTOINCREMENT ids to new rows. -/
def max_volunteer_id (vs : List Volunteer) : Nat :=
  vs.foldr (fun v m => max v.id m) 0

/-! ## Route handlers as pure functions on `DB` -/

/-- POST `/submit` (`submit_request` in src/app.py): strip the five fields,
reject if any is empty, otherwise classify the description and insert a new
`Unsolved` request.  The returned Bool is true when a row was inserted and
false when the handler flashed an error and redirected back to the form. -/
def submit_request (db : DB) (name phone address category description : String)
    (now : Nat) : DB × Bool :=
  if strTrim name == "" || strTrim phone == "" || strTrim address == "" ||
     strTrim category == "" || strTrim description == "" then
    (db, false)
  else
    (⟨db.help_requests ++
        [⟨max_request_id db.help_requests + 1, strTrim name, strTrim phone, strTrim address,
          strTrim category, strTrim description, predict_urgency (strTrim description),
          "Unsolved", now⟩],
      db.volunteers⟩, true)

/-- POST `/volunteer/register` (`volunteer_register` in src/app.py): strip
the three fields, reject if any is empty, reject if a volunteer row with the
same email already exists (`WHERE email = ?`, an exact comparison), otherwise
insert a new volunteer whose `last_seen_alert_id` is the current maximum
request id.  The Bool is true when a row was inserted. -/
def volunteer_register (db : DB) (name phone email : String) (now : Nat) :
    DB × Bool :=
  if strTrim name == "" || strTrim phone == "" || strTrim email == "" then
    (db, false)
  else if db.volunteers.any (fun v => v.email == strTrim email) then
    (db, false)
  else
    (⟨db.help_requests,
      db.volunteers ++
        [⟨max_volunteer_id db.volunteers + 1, strTrim name, strTrim phone, strTrim email,
          now, max_request_id db.help_requests⟩]⟩, true)

/-- `get_volunteer_by_email` in src/app.py: lookup with
`LOWER(email) = LOWER(?)`, a case-insensitive comparison. -/
def get_volunteer_by_email (db : DB) (email : String) : Option Volunteer :=
  db.volunteers.find? (fun v => strLower v.email == strLower email)

/-- The volunteer lookup in `view_requests` (line 206): `WHERE email = ?`,
an exact comparison against the session email. -/
def get_volunteer (db : DB) (email : String) : Option Volunteer :=
  db.volunteers.find? (fun v => v.email == email)

/-- The emergency-alert query in `view_requests`: all requests with
`urgency = Emergency` and id greater than the volunteer's watermark,
ordered by creation timestamp descending. -/
def emergency_alerts (db : DB) (v : Volunteer) : List HelpRequest :=
  List.insertionSort (fun x y => y.created_at ≤ x.created_at)
    (db.help_requests.filter
      (fun r => r.urgency == "Emergency" && v.last_seen_alert_id < r.id))

/-- The row update performed by `dismiss_alerts`:
`UPDATE volunteers SET last_seen_alert_id = ? WHERE email = ?`. -/
def updWatermark (email : String) (m : Nat) (v : Volunteer) : Volunteer :=
  if v.email == email then { v with last_seen_alert_id := m } else v

/-- POST `/dismiss-alerts` (`dismiss_alerts` in src/app.py): if
`MAX(id)` over help_requests is truthy (non-NULL and non-zero), set
`last_seen_alert_id` of every volunteer row with the given email to it. -/
def dismiss_alerts (db : DB) (email : String) : DB :=
  if max_request_id db.help_requests = 0 then db
  else
    ⟨db.help_requests,
      db.volunteers.map (updWatermark email (max_request_id db.help_requests))⟩

/-- The row update performed by `toggle_status`:
`UPDATE help_requests SET solved_status = ? WHERE id = ?`. -/
def setStatus (rid : Nat) (s : String) (r : HelpRequest) : HelpRequest :=
  if r.id == rid then { r with solved_status := s } else r

/-- POST `/admin/toggle/<id>` (`toggle_status` in src/app.py): fetch the
row's status, and if found flip Unsolved to Solved and anything else to
Unsolved; if no row exists, flash not-found and change nothing.  The Bool
is true when the row was found. -/
def toggle_status (db : DB) (rid : Nat) : DB × Bool :=
  match db.help_requests.find? (fun r => r.id == rid) with
  | none => (db, false)
  | some row =>
      (⟨db.help_requests.map
          (setStatus rid (if row.solved_status == "Unsolved" then "Solved" else "Unsolved")),
        db.volunteers⟩, true)

/-- The WHERE clause built by the `admin` view from the two filter query
parameters: `urgency = 'Emergency'` is appended exactly when the urgency
filter is "emergency", and a `solved_status` condition exactly when the
status filter is "solved" or "unsolved". -/
def request_matches (uf sf : String) (r : HelpRequest) : Bool :=
  (if uf == "emergency" then r.urgency == "Emergency" else true) &&
  (if sf == "solved" then r.solved_status == "Solved"
   else if sf == "unsolved" then r.solved_status == "Unsolved" else true)

/-- GET `/admin` (the `admin` view): the filtered request list, ordered by
creation timestamp descending. -/
def admin_requests (db : DB) (uf sf : String) : List HelpRequest :=
  List.insertionSort (fun x y => y.created_at ≤ x.created_at)
    (db.help_requests.filter (request_matches uf sf))

/-! ## Operations and reachability -/

/-- The store-mutating operations of the application. -/
inductive Op where
  | submit (name phone address category description : String) (now : Nat)
  | register (name phone email : String) (now : Nat)
  | dismiss (email : String)
  | toggle (rid : Nat)
deriving DecidableEq

/-- The state transition of one operation. -/
def applyOp (db : DB) : Op → DB
  | .submit n p a c d now => (submit_request db n p a c d now).1
  | .register n p e now => (volunteer_register db n p e now).1
  | .dismiss e => dismiss_alerts db e
  | .toggle rid => toggle_status db rid |>.1

/-- Run a sequence of operations. -/
def applyOps (db : DB) (ops : List Op) : DB :=
  ops.foldl applyOp db

/-- Does the operation insert a new Emergency help request?  Only a valid
submission whose stripped description classifies as Emergency does. -/
def creates_emergency : Op → Bool
  | .submit n p a c d _ =>
      !(strTrim n == "" || strTrim p == "" || strTrim a == "" ||
        strTrim c == "" || strTrim d == "") &&
      (predict_urgency (strTrim d) == "Emergency")
  | _ => false

/-- Is the operation a dismiss-alerts request? -/
def is_dismiss : Op → Bool
  | .dismiss _ => true
  | _ => false

/-- Watermark well-formedness: every volunteer's `last_seen_alert_id` is at
most the current maximum request id.  It holds of the empty database and is
preserved by every operation (`WF_applyOp` below). -/
def WF (db : DB) : Prop :=
  ∀ v ∈ db.volunteers, v.last_seen_alert_id ≤ max_request_id db.help_requests

/-! ## Theorems -/

/-- C1: every description whose lower-casing contains at least one emergency
keyword as a substring is classified "Emergency" by `predict_urgency`,
regardless of which medium keywords it may also contain. -/
theorem predict_urgency_emergency_priority (d : String)
    (h : ∃ k ∈ emergency_keywords, strContains (strLower d) k = true) :
    predict_urgency d = "Emergency" := by
  obtain ⟨k, hk, hc⟩ := h
  unfold predict_urgency
  rw [if_pos (List.any_eq_true.mpr ⟨k, hk, hc⟩)]

/-- Witness for C1 at a description containing the emergency keyword "FIRE"
(upper case) together with the medium keyword "food". -/
theorem predict_urgency_emergency_priority_witness :
    (∃ k ∈ emergency_keywords, strContains (strLower "FIRE took our food") k = true) ∧
    predict_urgency "FIRE took our food" = "Emergency" :=
  ⟨by decide, predict_urgency_emergency_priority "FIRE took our food" (by decide)⟩

/-- C2: a description whose lower-casing contains no emergency keyword is
classified "Medium" when it contains some medium keyword as a substring and
"Low" otherwise. -/
theorem predict_urgency_medium_low (d : String)
    (he : ∀ k ∈ emergency_keywords, strContains (strLower d) k = false) :
    ((∃ k ∈ medium_keywords, strContains (strLower d) k = true) →
      predict_urgency d = "Medium") ∧
    ((∀ k ∈ medium_keywords, strContains (strLower d) k = false) →
      predict_urgency d = "Low") := by
  have hne : (emergency_keywords.any fun k => strContains (strLower d) k) = false := by
    rw [List.any_eq_false]
    intro k hk
    simp [he k hk]
  constructor
  · intro hm
    obtain ⟨k, hk, hc⟩ := hm
    unfold predict_urgency
    rw [if_neg (by simp [hne]), if_pos (List.any_eq_true.mpr ⟨k, hk, hc⟩)]
  · intro hm
    have hnm : (medium_keywords.any fun k => strContains (strLower d) k) = false := by
      rw [List.any_eq_false]
      intro k hk
      simp [hm k hk]
    unfold predict_urgency
    rw [if_neg (by simp [hne]), if_neg (by simp [hnm])]

/-- Witness for C2 at the empty description, which matches neither keyword
list and is therefore classified "Low". -/
theorem predict_urgency_medium_low_witness :
    (∀ k ∈ emergency_keywords, strContains (strLower "") k = false) ∧
    (((∃ k ∈ medium_keywords, strContains (strLower "") k = true) →
        predict_urgency "" = "Medium") ∧
      ((∀ k ∈ medium_keywords, strContains (strLower "") k = false) →
        predict_urgency "" = "Low")) :=
  ⟨by decide, predict_urgency_medium_low "" (by decide)⟩

/-- C3 counterexample: the spec's third example description is NOT mapped to
"Low": the medium keyword "pain" occurs as a substring of "paint", so
`predict_urgency` returns "Medium" for it. -/
theorem predict_urgency_fence_not_low :
    predict_urgency "Looking for volunteers to help paint a fence" ≠ "Low" ∧
    predict_urgency "Looking for volunteers to help paint a fence" = "Medium" ∧
    strContains (strLower "Looking for volunteers to help paint a fence") "pain" = true := by
  decide

/-- C3 amended: the three example descriptions map to "Emergency", "Medium"
and "Medium" respectively (the third contains the medium keyword "pain"
inside "paint", so it is Medium rather than Low). -/
theorem predict_urgency_spec_examples :
    predict_urgency "Patient is unconscious after the accident" = "Emergency" ∧
    predict_urgency "I need food and water for my family" = "Medium" ∧
    predict_urgency "Looking for volunteers to help paint a fence" = "Medium" := by
  decide

/-- C5: a submission in which some required field is empty after stripping
whitespace leaves the store unchanged and signals an error (false); no
record is inserted. -/
theorem submit_request_blank_rejected (db : DB)
    (name phone address category description : String) (now : Nat)
    (h : strTrim name = "" ∨ strTrim phone = "" ∨ strTrim address = "" ∨
         strTrim category = "" ∨ strTrim description = "") :
    submit_request db name phone address category description now = (db, false) := by
  have hb : (strTrim name == "" || strTrim phone == "" || strTrim address == "" ||
      strTrim category == "" || strTrim description == "") = true := by
    simp only [Bool.or_eq_true, beq_iff_eq]
    tauto
  simp [submit_request, hb]

/-- Witness for C5: submitting with a whitespace-only address into the empty
store changes nothing. -/
theorem submit_request_blank_rejected_witness :
    (strTrim "Ann" = "" ∨ strTrim "123" = "" ∨ strTrim "  " = "" ∨
      strTrim "Food" = "" ∨ strTrim "need food" = "") ∧
    submit_request ⟨[], []⟩ "Ann" "123" "  " "Food" "need food" 7 = (⟨[], []⟩, false) :=
  ⟨by decide,
    submit_request_blank_rejected ⟨[], []⟩ "Ann" "123" "  " "Food" "need food" 7 (by decide)⟩

/-- C7: toggling the status of an id that no help request carries signals
not-found (false) and leaves the whole store unchanged. -/
theorem toggle_status_absent_id (db : DB) (rid : Nat)
    (h : ∀ r ∈ db.help_requests, r.id ≠ rid) :
    toggle_status db rid = (db, false) := by
  have hf : db.help_requests.find? (fun r => r.id == rid) = none := by
    rw [List.find?_eq_none]
    intro r hr
    simpa using h r hr
  simp [toggle_status, hf]

/-- Witness for C7: toggling id 2 in a store holding only request 1. -/
theorem toggle_status_absent_id_witness :
    (∀ r ∈ (DB.mk [⟨1, "A", "1", "x", "Food", "need food", "Medium", "Unsolved", 3⟩] []).help_requests,
      r.id ≠ 2) ∧
    toggle_status ⟨[⟨1, "A", "1", "x", "Food", "need food", "Medium", "Unsolved", 3⟩], []⟩ 2 =
      (⟨[⟨1, "A", "1", "x", "Food", "need food", "Medium", "Unsolved", 3⟩], []⟩, false) :=
  ⟨by decide,
    toggle_status_absent_id ⟨[⟨1, "A", "1", "x", "Food", "need food", "Medium", "Unsolved", 3⟩], []⟩ 2
      (by decide)⟩

/-- C4: the register handler checks duplicates with a case-sensitive
`WHERE email = ?` (and the UNIQUE constraint uses the default BINARY
collation), so an email differing only in letter case from a registered one
is NOT rejected: a second volunteer row is inserted — even though the
application's own `get_volunteer_by_email` treats the two emails as the
same account. -/
theorem volunteer_register_case_sensitivity_bug :
    (volunteer_register ⟨[], [⟨1, "Alice", "111", "alice@example.com", 0, 0⟩]⟩
        "Bob" "222" "Alice@example.com" 5).2 = true ∧
    (volunteer_register ⟨[], [⟨1, "Alice", "111", "alice@example.com", 0, 0⟩]⟩
        "Bob" "222" "Alice@example.com" 5).1.volunteers.length = 2 ∧
    get_volunteer_by_email ⟨[], [⟨1, "Alice", "111", "alice@example.com", 0, 0⟩]⟩
        "Alice@example.com" = some ⟨1, "Alice", "111", "alice@example.com", 0, 0⟩ := by
  decide

/-! Helper lemmas about `setStatus` and `find?`, used for the toggle
involution. -/

/-- `setStatus` never changes the id of a row. -/
theorem setStatus_id (rid : Nat) (s : String) (r : HelpRequest) :
    (setStatus rid s r).id = r.id := by
  unfold setStatus
  split <;> rfl

/-- `find?` by id commutes with the status update, since the update keeps
every id. -/
theorem find?_map_setStatus (l : List HelpRequest) (rid : Nat) (s : String) :
    (l.map (setStatus rid s)).find? (fun r => r.id == rid) =
      (l.find? (fun r => r.id == rid)).map (setStatus rid s) := by
  induction l with
  | nil => rfl
  | cons a t ih =>
    simp only [List.map_cons, List.find?_cons, setStatus_id]
    by_cases h : (a.id == rid) = true
    · simp [h]
    · simp [h, ih]

/-- Overwriting a status twice keeps only the second write. -/
theorem setStatus_setStatus (rid : Nat) (s₁ s₂ : String) (r : HelpRequest) :
    setStatus rid s₂ (setStatus rid s₁ r) = setStatus rid s₂ r := by
  unfold setStatus
  by_cases h : (r.id == rid) = true <;> simp [h]

/-- Writing the status a row already has changes nothing. -/
theorem map_setStatus_self (l : List HelpRequest) (rid : Nat) (s : String)
    (h : ∀ r ∈ l, r.id = rid → r.solved_status = s) :
    l.map (setStatus rid s) = l := by
  induction l with
  | nil => rfl
  | cons a t ih =>
    rw [List.map_cons, ih (fun r hr hid => h r (List.mem_cons_of_mem _ hr) hid)]
    congr 1
    unfold setStatus
    by_cases ha : (a.id == rid) = true
    · rw [if_pos ha, ← h a (List.mem_cons_self a t) (beq_iff_eq.mp ha)]
    · rw [if_neg ha]

/-- With pairwise-distinct ids (the PRIMARY KEY invariant), every member
carrying the searched id is the row `find?` returned. -/
theorem eq_of_mem_of_find? (l : List HelpRequest) (rid : Nat) (row : HelpRequest)
    (hp : l.Pairwise (fun a b => a.id ≠ b.id))
    (hf : l.find? (fun r => r.id == rid) = some row) :
    ∀ r ∈ l, r.id = rid → r = row := by
  induction l with
  | nil => intro r hr; cases hr
  | cons a t ih =>
    intro r hr hid
    obtain ⟨ha, ht⟩ := List.pairwise_cons.mp hp
    simp only [List.find?_cons] at hf
    by_cases hcase : (a.id == rid) = true
    · simp only [hcase] at hf
      obtain rfl : a = row := by injection hf
      rcases List.mem_cons.mp hr with rfl | hrt
      · rfl
      · exact absurd ((beq_iff_eq.mp hcase).trans hid.symm) (ha r hrt)
    · simp only [Bool.eq_false_iff.mpr hcase] at hf
      rcases List.mem_cons.mp hr with rfl | hrt
      · exact absurd (beq_iff_eq.mpr hid) (by simpa using hcase)
      · exact ih ht hf r hrt hid

/-- C6: toggling an existing request reports success and flips its status
Unsolved→Solved or Solved→Unsolved, and toggling the same id twice restores
the store exactly (the toggle is an involution on an existing request),
given the table invariants that ids are pairwise distinct and the stored
status is one of the two enumerated values. -/
theorem toggle_status_involution (db : DB) (rid : Nat) (row : HelpRequest)
    (hfind : db.help_requests.find? (fun r => r.id == rid) = some row)
    (hstat : row.solved_status = "Unsolved" ∨ row.solved_status = "Solved")
    (huniq : db.help_requests.Pairwise (fun a b => a.id ≠ b.id)) :
    (toggle_status db rid).2 = true ∧
    (row.solved_status = "Unsolved" →
      (toggle_status db rid).1.help_requests.find? (fun r => r.id == rid) =
        some { row with solved_status := "Solved" }) ∧
    (row.solved_status = "Solved" →
      (toggle_status db rid).1.help_requests.find? (fun r => r.id == rid) =
        some { row with solved_status := "Unsolved" }) ∧
    (toggle_status (toggle_status db rid).1 rid).1 = db := by
  have hrow_id' := List.find?_some hfind
  have hrow_id : row.id = rid := by simpa using hrow_id'
  have h1 : toggle_status db rid =
      (⟨db.help_requests.map
          (setStatus rid (if row.solved_status == "Unsolved" then "Solved" else "Unsolved")),
        db.volunteers⟩, true) := by
    rw [toggle_status, hfind]
  have hfind1 : (db.help_requests.map
        (setStatus rid (if row.solved_status == "Unsolved" then "Solved" else "Unsolved"))).find?
        (fun r => r.id == rid) =
      some { row with
        solved_status := if row.solved_status == "Unsolved" then "Solved" else "Unsolved" } := by
    rw [find?_map_setStatus, hfind, Option.map_some']
    unfold setStatus
    rw [if_pos (beq_iff_eq.mpr hrow_id)]
  refine ⟨by rw [h1], ?_, ?_, ?_⟩
  · intro hu
    rw [h1]
    simpa [hu] using hfind1
  · intro hs
    rw [h1]
    simpa [hs] using hfind1
  · rw [h1, toggle_status, hfind1]
    have hflip :
        (if ({ row with
              solved_status :=
                if row.solved_status == "Unsolved" then "Solved" else "Unsolved"} :
            HelpRequest).solved_status == "Unsolved" then "Solved" else "Unsolved") =
          row.solved_status := by
      rcases hstat with h | h <;> simp [h]
    simp only [hflip]
    rw [List.map_map]
    have hcomp : db.help_requests.map
          (setStatus rid row.solved_status ∘
            setStatus rid (if row.solved_status == "Unsolved" then "Solved" else "Unsolved")) =
        db.help_requests.map (setStatus rid row.solved_status) := by
      apply List.map_congr_left
      intro r _
      exact setStatus_setStatus rid _ _ r
    rw [hcomp, map_setStatus_self _ _ _
      (fun r hr hid => by rw [eq_of_mem_of_find? _ _ _ huniq hfind r hr hid])]

/-- Witness for C6 at a one-request store. -/
theorem toggle_status_involution_witness :
    ((DB.mk [⟨1, "A", "1", "x", "Food", "need food", "Medium", "Unsolved", 3⟩] []).help_requests.find?
        (fun r => r.id == 1) =
      some ⟨1, "A", "1", "x", "Food", "need food", "Medium", "Unsolved", 3⟩) ∧
    ((⟨1, "A", "1", "x", "Food", "need food", "Medium", "Unsolved", 3⟩ :
        HelpRequest).solved_status = "Unsolved" ∨
      (⟨1, "A", "1", "x", "Food", "need food", "Medium", "Unsolved", 3⟩ :
        HelpRequest).solved_status = "Solved") ∧
    (toggle_status
        (toggle_status ⟨[⟨1, "A", "1", "x", "Food", "need food", "Medium", "Unsolved", 3⟩], []⟩ 1).1
        1).1 =
      ⟨[⟨1, "A", "1", "x", "Food", "need food", "Medium", "Unsolved", 3⟩], []⟩ :=
  ⟨by decide, by decide,
    (toggle_status_involution
        ⟨[⟨1, "A", "1", "x", "Food", "need food", "Medium", "Unsolved", 3⟩], []⟩ 1
        ⟨1, "A", "1", "x", "Food", "need food", "Medium", "Unsolved", 3⟩
        (by decide) (by decide) (by decide)).2.2.2⟩

/-- C8: for every store and every admitted combination of the urgency
filter ("all" or "emergency") and status filter ("all", "solved" or
"unsolved"), the admin view returns exactly the requests satisfying the
conjunction of the selected constraints ("all" imposing none), ordered by
creation timestamp descending. -/
theorem admin_requests_filter_spec (db : DB) (uf sf : String)
    (hu : uf = "all" ∨ uf = "emergency")
    (hs : sf = "all" ∨ sf = "solved" ∨ sf = "unsolved") :
    (∀ r, r ∈ admin_requests db uf sf ↔
      (r ∈ db.help_requests ∧
        (uf = "emergency" → r.urgency = "Emergency") ∧
        (sf = "solved" → r.solved_status = "Solved") ∧
        (sf = "unsolved" → r.solved_status = "Unsolved"))) ∧
    List.Sorted (fun x y => y.created_at ≤ x.created_at) (admin_requests db uf sf) := by
  have hsorted : List.Sorted (fun x y => y.created_at ≤ x.created_at)
      (admin_requests db uf sf) := by
    haveI ht : IsTrans HelpRequest (fun x y => y.created_at ≤ x.created_at) :=
      ⟨fun a b c hab hbc => Nat.le_trans hbc hab⟩
    haveI hto : IsTotal HelpRequest (fun x y => y.created_at ≤ x.created_at) :=
      ⟨fun a b => Nat.le_total b.created_at a.created_at⟩
    exact List.sorted_insertionSort _ _
  refine ⟨?_, hsorted⟩
  intro r
  have g1 : ("all" : String) ≠ "emergency" := by decide
  have g2 : ("all" : String) ≠ "solved" := by decide
  have g3 : ("all" : String) ≠ "unsolved" := by decide
  have g4 : ("solved" : String) ≠ "unsolved" := by decide
  have g5 : ("unsolved" : String) ≠ "solved" := by decide
  rcases hu with rfl | rfl <;> rcases hs with rfl | rfl | rfl <;>
    simp [admin_requests, request_matches, List.mem_filter, g1, g2, g3, g4, g5]

/-- Witness for C8: the emergency+unsolved filter on a two-request store. -/
theorem admin_requests_filter_spec_witness :
    (("emergency" : String) = "all" ∨ ("emergency" : String) = "emergency") ∧
    (("unsolved" : String) = "all" ∨ ("unsolved" : String) = "solved" ∨
      ("unsolved" : String) = "unsolved") ∧
    (∀ r, r ∈ admin_requests
        ⟨[⟨1, "A", "1", "x", "Fire", "fire", "Emergency", "Unsolved", 3⟩,
          ⟨2, "B", "2", "y", "Food", "need food", "Medium", "Unsolved", 4⟩], []⟩
        "emergency" "unsolved" ↔
      (r ∈ (DB.mk [⟨1, "A", "1", "x", "Fire", "fire", "Emergency", "Unsolved", 3⟩,
          ⟨2, "B", "2", "y", "Food", "need food", "Medium", "Unsolved", 4⟩] []).help_requests ∧
        (("emergency" : String) = "emergency" → r.urgency = "Emergency") ∧
        (("unsolved" : String) = "solved" → r.solved_status = "Solved") ∧
        (("unsolved" : String) = "unsolved" → r.solved_status = "Unsolved"))) ∧
    List.Sorted (fun x y => y.created_at ≤ x.created_at)
      (admin_requests
        ⟨[⟨1, "A", "1", "x", "Fire", "fire", "Emergency", "Unsolved", 3⟩,
          ⟨2, "B", "2", "y", "Food", "need food", "Medium", "Unsolved", 4⟩], []⟩
        "emergency" "unsolved") :=
  ⟨Or.inr rfl, Or.inr (Or.inr rfl),
    (admin_requests_filter_spec
      ⟨[⟨1, "A", "1", "x", "Fire", "fire", "Emergency", "Unsolved", 3⟩,
        ⟨2, "B", "2", "y", "Food", "need food", "Medium", "Unsolved", 4⟩], []⟩
      "emergency" "unsolved" (Or.inr rfl) (Or.inr (Or.inr rfl))).1,
    (admin_requests_filter_spec
      ⟨[⟨1, "A", "1", "x", "Fire", "fire", "Emergency", "Unsolved", 3⟩,
        ⟨2, "B", "2", "y", "Food", "need food", "Medium", "Unsolved", 4⟩], []⟩
      "emergency" "unsolved" (Or.inr rfl) (Or.inr (Or.inr rfl))).2⟩

/-! Helper lemmas about maximum ids, the watermark update and the alert
query, used for the alert-lifecycle and monotonicity claims. -/

/-- Every stored id is bounded by the table's maximum id. -/
theorem id_le_max_request_id (rs : List HelpRequest) :
    ∀ r ∈ rs, r.id ≤ max_request_id rs := by
  induction rs with
  | nil => intro r hr; cases hr
  | cons a t ih =>
    intro r hr
    rcases List.mem_cons.mp hr with rfl | hrt
    · exact Nat.le_max_left _ _
    · exact Nat.le_trans (ih r hrt) (Nat.le_max_right _ _)

/-- Folding the id maximum from an arbitrary seed. -/
theorem foldr_max_request_id (l : List HelpRequest) (a : Nat) :
    l.foldr (fun r m => max r.id m) a = max (max_request_id l) a := by
  induction l with
  | nil => simp [max_request_id]
  | cons r t ih =>
    show max r.id (t.foldr _ a) = max (max r.id (max_request_id t)) a
    rw [ih, Nat.max_assoc]

/-- Appending one row takes the maximum with the new id. -/
theorem max_request_id_append (l : List HelpRequest) (x : HelpRequest) :
    max_request_id (l ++ [x]) = max (max_request_id l) x.id := by
  show (l ++ [x]).foldr (fun r m => max r.id m) 0 = _
  rw [List.foldr_append, foldr_max_request_id]
  show max (max_request_id l) (max x.id 0) = _
  rw [Nat.max_zero]

/-- Status updates keep the maximum id. -/
theorem max_request_id_map_setStatus (l : List HelpRequest) (rid : Nat) (s : String) :
    max_request_id (l.map (setStatus rid s)) = max_request_id l := by
  induction l with
  | nil => rfl
  | cons a t ih =>
    show max (setStatus rid s a).id (max_request_id (t.map _)) = max a.id (max_request_id t)
    rw [setStatus_id, ih]

/-- `setStatus` never changes the urgency of a row. -/
theorem setStatus_urgency (rid : Nat) (s : String) (r : HelpRequest) :
    (setStatus rid s r).urgency = r.urgency := by
  unfold setStatus
  split <;> rfl

/-- The watermark update never changes a volunteer's email. -/
theorem updWatermark_email (e : String) (m : Nat) (v : Volunteer) :
    (updWatermark e m v).email = v.email := by
  unfold updWatermark
  split <;> rfl

/-- `find?` by email commutes with the watermark update, since the update
keeps every email. -/
theorem find?_map_updWatermark (l : List Volunteer) (e₂ e : String) (m : Nat) :
    (l.map (updWatermark e₂ m)).find? (fun v => v.email == e) =
      (l.find? (fun v => v.email == e)).map (updWatermark e₂ m) := by
  induction l with
  | nil => rfl
  | cons a t ih =>
    simp only [List.map_cons, List.find?_cons, updWatermark_email]
    by_cases h : (a.email == e) = true
    · simp [h]
    · simp [h, ih]

/-- The alert list of `view_requests` is empty exactly when no stored
request is an Emergency above the volunteer's watermark. -/
theorem emergency_alerts_eq_nil_iff (db : DB) (v : Volunteer) :
    emergency_alerts db v = [] ↔
      ∀ r ∈ db.help_requests,
        ¬(r.urgency = "Emergency" ∧ v.last_seen_alert_id < r.id) := by
  unfold emergency_alerts
  constructor
  · intro h r hr hcond
    have hperm := List.perm_insertionSort (fun x y => y.created_at ≤ x.created_at)
      (db.help_requests.filter
        (fun r => r.urgency == "Emergency" && v.last_seen_alert_id < r.id))
    rw [h] at hperm
    have hfil := List.filter_eq_nil_iff.mp hperm.symm.eq_nil r hr
    simp only [Bool.and_eq_true, beq_iff_eq, decide_eq_true_eq, not_and] at hfil
    exact hfil hcond.1 hcond.2
  · intro h
    have hfil : db.help_requests.filter
        (fun r => r.urgency == "Emergency" && v.last_seen_alert_id < r.id) = [] := by
      rw [List.filter_eq_nil_iff]
      intro r hr
      simp only [Bool.and_eq_true, beq_iff_eq, decide_eq_true_eq, not_and]
      exact fun h1 h2 => h r hr ⟨h1, h2⟩
    rw [hfil]
    rfl

/-- The per-email alert invariant: whichever volunteer row the session
email resolves to has no Emergency request above its watermark. -/
def no_new_alerts (db : DB) (e : String) : Prop :=
  ∀ v, get_volunteer db e = some v →
    ∀ r ∈ db.help_requests,
      ¬(r.urgency = "Emergency" ∧ v.last_seen_alert_id < r.id)

/-- Dismissing alerts establishes the alert invariant for that email. -/
theorem no_new_alerts_dismiss (db : DB) (e : String) :
    no_new_alerts (dismiss_alerts db e) e := by
  unfold no_new_alerts dismiss_alerts get_volunteer
  by_cases h0 : max_request_id db.help_requests = 0
  · rw [if_pos h0]
    rintro v hv r hr ⟨hu, hlt⟩
    have hle := id_le_max_request_id db.help_requests r hr
    omega
  · rw [if_neg h0]
    intro v hv r hr hcond
    rw [find?_map_updWatermark] at hv
    cases hv0 : db.volunteers.find? (fun v => v.email == e) with
    | none => rw [hv0] at hv; cases hv
    | some v0 =>
      rw [hv0, Option.map_some'] at hv
      injection hv with hv
      have hmail := List.find?_some hv0
      have hle := id_le_max_request_id db.help_requests r hr
      have hlast : v.last_seen_alert_id = max_request_id db.help_requests := by
        rw [← hv]
        unfold updWatermark
        rw [if_pos hmail]
      exact absurd hcond.2 (by omega)

/-- Any operation that does not create an Emergency request preserves the
alert invariant. -/
theorem no_new_alerts_applyOp (db : DB) (e : String) (o : Op)
    (hben : creates_emergency o = false) (h : no_new_alerts db e) :
    no_new_alerts (applyOp db o) e := by
  cases o with
  | submit n p a c d now =>
    simp only [applyOp]
    unfold no_new_alerts at h ⊢
    unfold submit_request
    by_cases hval : (strTrim n == "" || strTrim p == "" || strTrim a == "" ||
        strTrim c == "" || strTrim d == "") = true
    · rw [if_pos hval]
      exact h
    · rw [if_neg hval]
      intro v hv r hr hcond
      rcases List.mem_append.mp hr with hrl | hrx
      · exact h v hv r hrl hcond
      · have hrx' := List.mem_singleton.mp hrx
        subst hrx'
        have hvalf : (strTrim n == "" || strTrim p == "" || strTrim a == "" ||
            strTrim c == "" || strTrim d == "") = false := by
          simpa using hval
        have hnemg : (predict_urgency (strTrim d) == "Emergency") = false := by
          simp only [creates_emergency] at hben
          rw [hvalf] at hben
          simpa using hben
        exact absurd hcond.1 (by simpa using hnemg)
  | register n p e₂ now =>
    simp only [applyOp]
    unfold no_new_alerts at h ⊢
    unfold volunteer_register
    by_cases hval : (strTrim n == "" || strTrim p == "" || strTrim e₂ == "") = true
    · rw [if_pos hval]
      exact h
    · rw [if_neg hval]
      by_cases hdup : (db.volunteers.any fun v => v.email == strTrim e₂) = true
      · rw [if_pos hdup]
        exact h
      · rw [if_neg hdup]
        intro v hv r hr hcond
        unfold get_volunteer at hv h
        rw [List.find?_append] at hv
        cases hv0 : db.volunteers.find? (fun v => v.email == e) with
        | some v0 =>
          rw [hv0] at hv
          obtain rfl : v0 = v := by simpa using hv
          exact h v0 hv0 r hr hcond
        | none =>
          rw [hv0] at hv
          have hv' : strTrim e₂ = e ∧
              (⟨max_volunteer_id db.volunteers + 1, strTrim n, strTrim p,
                strTrim e₂, now, max_request_id db.help_requests⟩ : Volunteer) = v := by
            simpa using hv
          obtain ⟨-, rfl⟩ := hv'
          have hle := id_le_max_request_id db.help_requests r hr
          exact absurd hcond.2 (Nat.not_lt.mpr hle)
  | dismiss e₂ =>
    simp only [applyOp]
    unfold no_new_alerts at h ⊢
    unfold dismiss_alerts
    by_cases h0 : max_request_id db.help_requests = 0
    · rw [if_pos h0]
      exact h
    · rw [if_neg h0]
      intro v hv r hr hcond
      unfold get_volunteer at hv h
      rw [find?_map_updWatermark] at hv
      cases hv0 : db.volunteers.find? (fun v => v.email == e) with
      | none => rw [hv0] at hv; cases hv
      | some v0 =>
        rw [hv0, Option.map_some'] at hv
        injection hv with hv
        subst hv
        unfold updWatermark at hcond
        by_cases hmail : (v0.email == e₂) = true
        · rw [if_pos hmail] at hcond
          have hle := id_le_max_request_id db.help_requests r hr
          exact absurd hcond.2 (Nat.not_lt.mpr hle)
        · rw [if_neg hmail] at hcond
          exact h v0 hv0 r hr hcond
  | toggle rid =>
    simp only [applyOp]
    unfold no_new_alerts at h ⊢
    unfold toggle_status
    cases hf : db.help_requests.find? (fun r => r.id == rid) with
    | none =>
      simp only [hf]
      exact h
    | some row =>
      simp only [hf]
      intro v hv r hr hcond
      obtain ⟨r0, hr0, rfl⟩ := List.mem_map.mp hr
      refine h v hv r0 hr0 ⟨?_, ?_⟩
      · rw [← setStatus_urgency rid _ r0]
        exact hcond.1
      · have h2 := hcond.2
        rwa [setStatus_id] at h2

/-- A sequence of operations none of which creates an Emergency request
preserves the alert invariant. -/
theorem no_new_alerts_applyOps (db : DB) (e : String) (ops : List Op)
    (hops : ∀ o ∈ ops, creates_emergency o = false) (h : no_new_alerts db e) :
    no_new_alerts (applyOps db ops) e := by
  induction ops generalizing db with
  | nil => exact h
  | cons o t ih =>
    exact ih (applyOp db o)
      (fun o' ho' => hops o' (List.mem_cons_of_mem _ ho'))
      (no_new_alerts_applyOp db e o (hops o (List.mem_cons_self o t)) h)

/-- Every operation preserves watermark well-formedness. -/
theorem WF_applyOp (db : DB) (o : Op) (h : WF db) : WF (applyOp db o) := by
  cases o with
  | submit n p a c d now =>
    simp only [applyOp]
    unfold WF at h ⊢
    unfold submit_request
    by_cases hval : (strTrim n == "" || strTrim p == "" || strTrim a == "" ||
        strTrim c == "" || strTrim d == "") = true
    · rw [if_pos hval]
      exact h
    · rw [if_neg hval]
      intro v hv
      refine Nat.le_trans (h v hv) ?_
      rw [max_request_id_append]
      exact Nat.le_max_left _ _
  | register n p e₂ now =>
    simp only [applyOp]
    unfold WF at h ⊢
    unfold volunteer_register
    by_cases hval : (strTrim n == "" || strTrim p == "" || strTrim e₂ == "") = true
    · rw [if_pos hval]
      exact h
    · rw [if_neg hval]
      by_cases hdup : (db.volunteers.any fun v => v.email == strTrim e₂) = true
      · rw [if_pos hdup]
        exact h
      · rw [if_neg hdup]
        intro v hv
        rcases List.mem_append.mp hv with hvl | hvx
        · exact h v hvl
        · rw [List.mem_singleton.mp hvx]
  | dismiss e₂ =>
    simp only [applyOp]
    unfold WF at h ⊢
    unfold dismiss_alerts
    by_cases h0 : max_request_id db.help_requests = 0
    · rw [if_pos h0]
      exact h
    · rw [if_neg h0]
      intro v hv
      obtain ⟨v0, hv0, rfl⟩ := List.mem_map.mp hv
      unfold updWatermark
      by_cases hmail : (v0.email == e₂) = true
      · rw [if_pos hmail]
      · rw [if_neg hmail]
        exact h v0 hv0
  | toggle rid =>
    simp only [applyOp]
    unfold WF at h ⊢
    unfold toggle_status
    cases hf : db.help_requests.find? (fun r => r.id == rid) with
    | none =>
      simp only [hf]
      exact h
    | some row =>
      simp only [hf]
      intro v hv
      rw [max_request_id_map_setStatus]
      exact h v hv

/-- Watermark well-formedness is preserved by operation sequences. -/
theorem WF_applyOps (db : DB) (ops : List Op) (h : WF db) : WF (applyOps db ops) := by
  induction ops generalizing db with
  | nil => exact h
  | cons o t ih => exact ih (applyOp db o) (WF_applyOp db o h)

/-- C9: immediately after `dismiss_alerts` the volunteer row reached by the
session email has an empty emergency-alert list; the list stays empty under
any sequence of operations that creates no Emergency request; and it is
non-empty as soon as a valid submission classified Emergency is made. -/
theorem dismiss_alerts_lifecycle (db : DB) (e : String) (ops : List Op)
    (n p a c d : String) (now : Nat)
    (hwf : WF db)
    (hops : ∀ o ∈ ops, creates_emergency o = false)
    (hvalid : (strTrim n == "" || strTrim p == "" || strTrim a == "" ||
        strTrim c == "" || strTrim d == "") = false)
    (hemg : predict_urgency (strTrim d) = "Emergency") :
    (∀ v, get_volunteer (dismiss_alerts db e) e = some v →
      emergency_alerts (dismiss_alerts db e) v = []) ∧
    (∀ v, get_volunteer (applyOps (dismiss_alerts db e) ops) e = some v →
      emergency_alerts (applyOps (dismiss_alerts db e) ops) v = []) ∧
    (∀ v, get_volunteer
        (submit_request (applyOps (dismiss_alerts db e) ops) n p a c d now).1 e = some v →
      emergency_alerts
        (submit_request (applyOps (dismiss_alerts db e) ops) n p a c d now).1 v ≠ []) := by
  have h1 : no_new_alerts (dismiss_alerts db e) e := no_new_alerts_dismiss db e
  have h2 : no_new_alerts (applyOps (dismiss_alerts db e) ops) e :=
    no_new_alerts_applyOps _ e ops hops h1
  have hwf1 : WF (dismiss_alerts db e) := WF_applyOp db (Op.dismiss e) hwf
  have hwf2 : WF (applyOps (dismiss_alerts db e) ops) := WF_applyOps _ ops hwf1
  refine ⟨?_, ?_, ?_⟩
  · intro v hv
    exact (emergency_alerts_eq_nil_iff _ v).mpr (h1 v hv)
  · intro v hv
    exact (emergency_alerts_eq_nil_iff _ v).mpr (h2 v hv)
  · intro v hv
    have hsub : submit_request (applyOps (dismiss_alerts db e) ops) n p a c d now =
        (⟨(applyOps (dismiss_alerts db e) ops).help_requests ++
            [⟨max_request_id (applyOps (dismiss_alerts db e) ops).help_requests + 1,
              strTrim n, strTrim p, strTrim a, strTrim c, strTrim d,
              predict_urgency (strTrim d), "Unsolved", now⟩],
          (applyOps (dismiss_alerts db e) ops).volunteers⟩, true) := by
      unfold submit_request
      rw [if_neg (by simp [hvalid])]
    rw [hsub] at hv ⊢
    unfold get_volunteer at hv
    have hvmem : v ∈ (applyOps (dismiss_alerts db e) ops).volunteers :=
      List.mem_of_find?_eq_some hv
    have hvle := hwf2 v hvmem
    intro hnil
    have hiff := (emergency_alerts_eq_nil_iff _ v).mp hnil
    refine hiff
      (⟨max_request_id (applyOps (dismiss_alerts db e) ops).help_requests + 1,
        strTrim n, strTrim p, strTrim a, strTrim c, strTrim d,
        predict_urgency (strTrim d), "Unsolved", now⟩ : HelpRequest)
      ?_ ⟨hemg, Nat.lt_succ_of_le hvle⟩
    exact List.mem_append_right _ (List.mem_singleton.mpr rfl)

/-- Witness for C9: a store with one volunteer and no request; no
intermediate operations; then a valid submission with the description
"urgent", which classifies as Emergency. -/
theorem dismiss_alerts_lifecycle_witness :
    WF ⟨[], [⟨1, "V", "1", "vol@x", 0, 0⟩]⟩ ∧
    (strTrim "N" == "" || strTrim "1" == "" || strTrim "A" == "" ||
      strTrim "C" == "" || strTrim "urgent" == "") = false ∧
    predict_urgency (strTrim "urgent") = "Emergency" ∧
    ((∀ v, get_volunteer (dismiss_alerts ⟨[], [⟨1, "V", "1", "vol@x", 0, 0⟩]⟩ "vol@x")
          "vol@x" = some v →
        emergency_alerts (dismiss_alerts ⟨[], [⟨1, "V", "1", "vol@x", 0, 0⟩]⟩ "vol@x") v = []) ∧
      (∀ v, get_volunteer
          (applyOps (dismiss_alerts ⟨[], [⟨1, "V", "1", "vol@x", 0, 0⟩]⟩ "vol@x") [])
          "vol@x" = some v →
        emergency_alerts
          (applyOps (dismiss_alerts ⟨[], [⟨1, "V", "1", "vol@x", 0, 0⟩]⟩ "vol@x") []) v = []) ∧
      (∀ v, get_volunteer
          (submit_request (applyOps (dismiss_alerts ⟨[], [⟨1, "V", "1", "vol@x", 0, 0⟩]⟩ "vol@x") [])
            "N" "1" "A" "C" "urgent" 9).1 "vol@x" = some v →
        emergency_alerts
          (submit_request (applyOps (dismiss_alerts ⟨[], [⟨1, "V", "1", "vol@x", 0, 0⟩]⟩ "vol@x") [])
            "N" "1" "A" "C" "urgent" 9).1 v ≠ [])) :=
  ⟨by unfold WF; decide, by decide, by decide,
    dismiss_alerts_lifecycle ⟨[], [⟨1, "V", "1", "vol@x", 0, 0⟩]⟩ "vol@x" []
      "N" "1" "A" "C" "urgent" 9 (by unfold WF; decide)
      (fun o ho => absurd ho (List.not_mem_nil o)) (by decide) (by decide)⟩

/-- Transport `List.get` along an equality of lists. -/
theorem get_congr {α : Type} (l l₂ : List α) (h : l = l₂) (i : Nat)
    (hi : i < l₂.length) (hi₂ : i < l.length) :
    l.get ⟨i, hi₂⟩ = l₂.get ⟨i, hi⟩ := by
  subst h
  rfl

/-- C10: no operation ever decreases a volunteer's `last_seen_alert_id`;
operations other than `dismiss_alerts` leave every existing volunteer row
untouched; and a dismiss for a volunteer's email (with a non-empty request
table) sets the watermark to the current maximum request id. -/
theorem last_seen_alert_id_monotone (db : DB) (o : Op) (hwf : WF db)
    (i : Nat) (hi : i < db.volunteers.length) :
    ∃ hj : i < (applyOp db o).volunteers.length,
      ((applyOp db o).volunteers.get ⟨i, hj⟩).email =
        (db.volunteers.get ⟨i, hi⟩).email ∧
      (db.volunteers.get ⟨i, hi⟩).last_seen_alert_id ≤
        ((applyOp db o).volunteers.get ⟨i, hj⟩).last_seen_alert_id ∧
      (is_dismiss o = false →
        (applyOp db o).volunteers.get ⟨i, hj⟩ = db.volunteers.get ⟨i, hi⟩) ∧
      (∀ e, o = Op.dismiss e →
        (db.volunteers.get ⟨i, hi⟩).email = e →
        max_request_id db.help_requests ≠ 0 →
          ((applyOp db o).volunteers.get ⟨i, hj⟩).last_seen_alert_id =
            max_request_id db.help_requests) := by
  cases o with
  | submit n p a c d now =>
    have hvols : (applyOp db (Op.submit n p a c d now)).volunteers = db.volunteers := by
      simp only [applyOp]
      unfold submit_request
      split <;> rfl
    have hj : i < (applyOp db (Op.submit n p a c d now)).volunteers.length := by
      rw [hvols]; exact hi
    have hg := get_congr _ _ hvols i hi hj
    exact ⟨hj, congrArg Volunteer.email hg,
      Nat.le_of_eq (congrArg Volunteer.last_seen_alert_id hg).symm,
      fun _ => hg, fun e he => Op.noConfusion he⟩
  | register n p e₂ now =>
    by_cases hval : (strTrim n == "" || strTrim p == "" || strTrim e₂ == "") = true
    · have hvols : (applyOp db (Op.register n p e₂ now)).volunteers = db.volunteers := by
        simp only [applyOp]
        unfold volunteer_register
        rw [if_pos hval]
      have hj : i < (applyOp db (Op.register n p e₂ now)).volunteers.length := by
        rw [hvols]; exact hi
      have hg := get_congr _ _ hvols i hi hj
      exact ⟨hj, congrArg Volunteer.email hg,
        Nat.le_of_eq (congrArg Volunteer.last_seen_alert_id hg).symm,
        fun _ => hg, fun e he => Op.noConfusion he⟩
    · by_cases hdup : (db.volunteers.any fun v => v.email == strTrim e₂) = true
      · have hvols : (applyOp db (Op.register n p e₂ now)).volunteers = db.volunteers := by
          simp only [applyOp]
          unfold volunteer_register
          rw [if_neg hval, if_pos hdup]
        have hj : i < (applyOp db (Op.register n p e₂ now)).volunteers.length := by
          rw [hvols]; exact hi
        have hg := get_congr _ _ hvols i hi hj
        exact ⟨hj, congrArg Volunteer.email hg,
          Nat.le_of_eq (congrArg Volunteer.last_seen_alert_id hg).symm,
          fun _ => hg, fun e he => Op.noConfusion he⟩
      · have hvols : (applyOp db (Op.register n p e₂ now)).volunteers =
            db.volunteers ++
              [⟨max_volunteer_id db.volunteers + 1, strTrim n, strTrim p, strTrim e₂,
                now, max_request_id db.help_requests⟩] := by
          simp only [applyOp]
          unfold volunteer_register
          rw [if_neg hval, if_neg hdup]
        have hj : i < (applyOp db (Op.register n p e₂ now)).volunteers.length := by
          rw [hvols, List.length_append]
          exact Nat.lt_of_lt_of_le hi (Nat.le_add_right _ _)
        have hg : (applyOp db (Op.register n p e₂ now)).volunteers.get ⟨i, hj⟩ =
            db.volunteers.get ⟨i, hi⟩ := by
          rw [List.get_eq_getElem, List.get_eq_getElem]
          simp only [hvols]
          exact List.getElem_append_left hi
        exact ⟨hj, congrArg Volunteer.email hg,
          Nat.le_of_eq (congrArg Volunteer.last_seen_alert_id hg).symm,
          fun _ => hg, fun e he => Op.noConfusion he⟩
  | dismiss e₂ =>
    by_cases h0 : max_request_id db.help_requests = 0
    · have hvols : (applyOp db (Op.dismiss e₂)).volunteers = db.volunteers := by
        simp only [applyOp]
        unfold dismiss_alerts
        rw [if_pos h0]
      have hj : i < (applyOp db (Op.dismiss e₂)).volunteers.length := by
        rw [hvols]; exact hi
      have hg := get_congr _ _ hvols i hi hj
      refine ⟨hj, congrArg Volunteer.email hg,
        Nat.le_of_eq (congrArg Volunteer.last_seen_alert_id hg).symm,
        fun _ => hg, ?_⟩
      intro e _ _ hne
      exact absurd h0 hne
    · have hvols : (applyOp db (Op.dismiss e₂)).volunteers =
          db.volunteers.map (updWatermark e₂ (max_request_id db.help_requests)) := by
        simp only [applyOp]
        unfold dismiss_alerts
        rw [if_neg h0]
      have hj : i < (applyOp db (Op.dismiss e₂)).volunteers.length := by
        rw [hvols, List.length_map]
        exact hi
      have hg : (applyOp db (Op.dismiss e₂)).volunteers.get ⟨i, hj⟩ =
          updWatermark e₂ (max_request_id db.help_requests)
            (db.volunteers.get ⟨i, hi⟩) := by
        rw [List.get_eq_getElem, List.get_eq_getElem]
        simp only [hvols]
        exact List.getElem_map _
      refine ⟨hj, ?_, ?_, ?_, ?_⟩
      · rw [hg, updWatermark_email]
      · rw [hg]
        unfold updWatermark
        by_cases hmail : ((db.volunteers.get ⟨i, hi⟩).email == e₂) = true
        · rw [if_pos hmail]
          exact hwf _ (List.get_mem _ _ hi)
        · rw [if_neg hmail]
      · intro hdis
        simp [is_dismiss] at hdis
      · intro e he hmail _
        injection he with he'
        subst he'
        rw [hg]
        unfold updWatermark
        rw [if_pos (beq_iff_eq.mpr hmail)]
  | toggle rid =>
    have hvols : (applyOp db (Op.toggle rid)).volunteers = db.volunteers := by
      simp only [applyOp]
      unfold toggle_status
      cases hf : db.help_requests.find? (fun r => r.id == rid) <;> simp [hf]
    have hj : i < (applyOp db (Op.toggle rid)).volunteers.length := by
      rw [hvols]; exact hi
    have hg := get_congr _ _ hvols i hi hj
    exact ⟨hj, congrArg Volunteer.email hg,
      Nat.le_of_eq (congrArg Volunteer.last_seen_alert_id hg).symm,
      fun _ => hg, fun e he => Op.noConfusion he⟩

/-- Witness for C10: dismissing alerts in a store with one request and one
volunteer at position 0. -/
theorem last_seen_alert_id_monotone_witness :
    WF ⟨[⟨1, "A", "1", "x", "Fire", "fire", "Emergency", "Unsolved", 3⟩],
        [⟨1, "V", "1", "vol@x", 0, 0⟩]⟩ ∧
    0 < (DB.mk [⟨1, "A", "1", "x", "Fire", "fire", "Emergency", "Unsolved", 3⟩]
        [⟨1, "V", "1", "vol@x", 0, 0⟩]).volunteers.length ∧
    ∃ hj : 0 < (applyOp ⟨[⟨1, "A", "1", "x", "Fire", "fire", "Emergency", "Unsolved", 3⟩],
        [⟨1, "V", "1", "vol@x", 0, 0⟩]⟩ (Op.dismiss "vol@x")).volunteers.length,
      ((applyOp ⟨[⟨1, "A", "1", "x", "Fire", "fire", "Emergency", "Unsolved", 3⟩],
          [⟨1, "V", "1", "vol@x", 0, 0⟩]⟩ (Op.dismiss "vol@x")).volunteers.get ⟨0, hj⟩).email =
        ((DB.mk [⟨1, "A", "1", "x", "Fire", "fire", "Emergency", "Unsolved", 3⟩]
          [⟨1, "V", "1", "vol@x", 0, 0⟩]).volunteers.get ⟨0, by decide⟩).email ∧
      ((DB.mk [⟨1, "A", "1", "x", "Fire", "fire", "Emergency", "Unsolved", 3⟩]
          [⟨1, "V", "1", "vol@x", 0, 0⟩]).volunteers.get ⟨0, by decide⟩).last_seen_alert_id ≤
        ((applyOp ⟨[⟨1, "A", "1", "x", "Fire", "fire", "Emergency", "Unsolved", 3⟩],
          [⟨1, "V", "1", "vol@x", 0, 0⟩]⟩ (Op.dismiss "vol@x")).volunteers.get
            ⟨0, hj⟩).last_seen_alert_id ∧
      (is_dismiss (Op.dismiss "vol@x") = false →
        (applyOp ⟨[⟨1, "A", "1", "x", "Fire", "fire", "Emergency", "Unsolved", 3⟩],
          [⟨1, "V", "1", "vol@x", 0, 0⟩]⟩ (Op.dismiss "vol@x")).volunteers.get ⟨0, hj⟩ =
        (DB.mk [⟨1, "A", "1", "x", "Fire", "fire", "Emergency", "Unsolved", 3⟩]
          [⟨1, "V", "1", "vol@x", 0, 0⟩]).volunteers.get ⟨0, by decide⟩) ∧
      (∀ e, Op.dismiss "vol@x" = Op.dismiss e →
        ((DB.mk [⟨1, "A", "1", "x", "Fire", "fire", "Emergency", "Unsolved", 3⟩]
          [⟨1, "V", "1", "vol@x", 0, 0⟩]).volunteers.get ⟨0, by decide⟩).email = e →
        max_request_id (DB.mk [⟨1, "A", "1", "x", "Fire", "fire", "Emergency", "Unsolved", 3⟩]
          [⟨1, "V", "1", "vol@x", 0, 0⟩]).help_requests ≠ 0 →
          ((applyOp ⟨[⟨1, "A", "1", "x", "Fire", "fire", "Emergency", "Unsolved", 3⟩],
            [⟨1, "V", "1", "vol@x", 0, 0⟩]⟩ (Op.dismiss "vol@x")).volunteers.get
              ⟨0, hj⟩).last_seen_alert_id =
            max_request_id (DB.mk [⟨1, "A", "1", "x", "Fire", "fire", "Emergency", "Unsolved", 3⟩]
              [⟨1, "V", "1", "vol@x", 0, 0⟩]).help_requests) :=
  ⟨by unfold WF; decide, by decide,
    last_seen_alert_id_monotone
      ⟨[⟨1, "A", "1", "x", "Fire", "fire", "Emergency", "Unsolved", 3⟩],
        [⟨1, "V", "1", "vol@x", 0, 0⟩]⟩ (Op.dismiss "vol@x")
      (by unfold WF; decide) 0 (by decide)⟩

end CommunityHelp
